import Mathlib

/-!
# Verification of the EminSumo emergency-vehicle priority controller

Shallow embedding of `src/emergency_vehicle_simulation.py`
(class `EmergencyVehiclePriority`).  Telemetry queries that the Python code
performs through `traci` inside `try`/`except` blocks are modelled as
`Option`-valued functions: `none` stands for a raised telemetry exception,
which the source code catches and handles locally.  Simulated time, lane
positions and lane lengths are modelled as rationals.  The per-tick body of
`EmergencyVehiclePriority.run` is embedded as a pure step function on an
explicit controller state, returning the list of signal commands issued
during that tick.
-/

namespace EminSumo

/-- A traffic direction as resolved by `get_vehicle_direction`
(`'NS'` or `'EW'` in the Python source; unresolvable roads yield `none`). -/
inductive Direction where
  | NS
  | EW
deriving DecidableEq, Repr

/-- One entry of the list built by `get_approaching_emergency_vehicles`:
the Python dict `{'id': …, 'direction': …, 'distance': …}`. -/
structure ApproachCandidate where
  id : String
  direction : Direction
  distance : ℚ
deriving DecidableEq, Repr

/-- One signal command issued to the intersection: the paired
`traci.trafficlight.setRedYellowGreenState` / `setPhaseDuration` calls.
`state` is the 12-character indication string
(order: north_in ×3, east_in ×3, south_in ×3, west_in ×3). -/
structure SignalCmd where
  state : String
  duration : ℚ
deriving DecidableEq, Repr

/-- The per-tick view of the telemetry source (`traci`).  Per-vehicle and
per-lane queries return `none` when the underlying `traci` call would raise
(e.g. the vehicle already left); `vehicleIds` is `traci.vehicle.getIDList()`
in its scan order, and `simTime` is `traci.simulation.getTime()`. -/
structure Telemetry where
  vehicleIds : List String
  typeOf : String → Option String
  roadOf : String → Option String
  lanePosOf : String → Option ℚ
  laneIdOf : String → Option String
  laneLengthOf : String → Option ℚ
  simTime : ℚ

/-- The mutable fields of `EmergencyVehiclePriority`.  The processed set is
a Python `set` that may receive `self.emergency_vehicle_id` even when that
field is `None`, hence `List (Option String)`; only membership is ever
observed. -/
structure CtrlState where
  emergency_active : Bool
  emergency_vehicle_id : Option String
  emergency_direction : Option Direction
  emergency_start_time : ℚ
  processed_emergency_vehicles : List (Option String)
deriving DecidableEq, Repr

/-- `self.detection_distance = 50`. -/
def detection_distance : ℚ := 50

/-- `self.emergency_phase_duration = 10`. -/
def emergency_phase_duration : ℚ := 10

/-- `self.yellow_duration = 2`, the literal `2` passed to
`setPhaseDuration` in `deactivate_emergency_priority`. -/
def yellow_clearance_duration : ℚ := 2

/-- `__init__`: `emergency_active=False`, no active vehicle or direction,
start time `0`, empty processed set. -/
def initState : CtrlState :=
  { emergency_active := false
    emergency_vehicle_id := none
    emergency_direction := none
    emergency_start_time := 0
    processed_emergency_vehicles := [] }

/-- Python's `sub in s` substring test on strings. -/
def strHasSub (s sub : String) : Bool :=
  (List.range (s.data.length + 1)).any fun i => sub.data.isPrefixOf (s.data.drop i)

/-- `get_vehicle_direction`: resolve a vehicle's road id to `NS`/`EW` by
substring matching; unresolvable roads and telemetry failures give `none`. -/
def get_vehicle_direction (t : Telemetry) (vehicle_id : String) : Option Direction :=
  match t.roadOf vehicle_id with
  | none => none
  | some road_id =>
    if strHasSub road_id "north_in" || strHasSub road_id "south_in" then
      some Direction.NS
    else if strHasSub road_id "east_in" || strHasSub road_id "west_in" then
      some Direction.EW
    else
      none

/-- `is_emergency_vehicle`: type id equals `"emergency"`; a failed type
query is caught and returns `False`. -/
def is_emergency_vehicle (t : Telemetry) (vehicle_id : String) : Bool :=
  match t.typeOf vehicle_id with
  | none => false
  | some vehicle_type => vehicle_type = "emergency"

/-- The body of the `for veh_id in all_vehicles` loop of
`get_approaching_emergency_vehicles`: decide whether one vehicle becomes a
candidate this tick.  Any telemetry failure inside the `try` block makes the
loop `continue`, i.e. yields `none`. -/
def scanVehicle (t : Telemetry) (processed : List (Option String)) (veh_id : String) :
    Option ApproachCandidate :=
  if some veh_id ∈ processed then none
  else if is_emergency_vehicle t veh_id then
    match t.roadOf veh_id with
    | none => none
    | some road_id =>
      if strHasSub road_id "_in" && !strHasSub road_id "center" then
        match t.lanePosOf veh_id with
        | none => none
        | some lane_pos =>
          match t.laneIdOf veh_id with
          | none => none
          | some lane_id =>
            match t.laneLengthOf lane_id with
            | none => none
            | some lane_length =>
              if lane_length - lane_pos ≤ detection_distance then
                match get_vehicle_direction t veh_id with
                | some direction =>
                  some { id := veh_id
                         direction := direction
                         distance := lane_length - lane_pos }
                | none => none
              else none
      else none
  else none

/-- `get_approaching_emergency_vehicles`: scan the live vehicle list in
telemetry order, collecting candidates. -/
def get_approaching_emergency_vehicles (t : Telemetry) (processed : List (Option String)) :
    List ApproachCandidate :=
  t.vehicleIds.filterMap (scanVehicle t processed)

/-- The emergency indication string set by `activate_emergency_priority`:
green for the served direction, red elsewhere. -/
def overrideState : Direction → String
  | Direction.NS => "GGGrrrGGGrrr"
  | Direction.EW => "rrrGGGrrrGGG"

/-- The clearance indication string set by `deactivate_emergency_priority`:
yellow on the approaches that were green during the override, red elsewhere. -/
def clearanceState : Direction → String
  | Direction.NS => "yyyrrryyyrrr"
  | Direction.EW => "rrryyyrrryyy"

/-- `activate_emergency_priority`: record the active vehicle, direction and
activation time, and issue the full-override green/red command with the
emergency phase duration. -/
def activate_emergency_priority (t : Telemetry) (s : CtrlState)
    (vehicle_id : String) (direction : Direction) : CtrlState × List SignalCmd :=
  ({ s with
      emergency_active := true
      emergency_vehicle_id := some vehicle_id
      emergency_direction := some direction
      emergency_start_time := t.simTime },
   [{ state := overrideState direction, duration := emergency_phase_duration }])

/-- `check_emergency_vehicle_passed`: `False` when no override is active;
otherwise `True` when the active vehicle left the simulation, is on an
outgoing (or empty) road, the 10-second safety timeout elapsed, or a
telemetry exception was raised inside the `try` block. -/
def check_emergency_vehicle_passed (t : Telemetry) (s : CtrlState) : Bool :=
  if s.emergency_active = false then false
  else
    match s.emergency_vehicle_id with
    | none => true
    | some v =>
      if v ∈ t.vehicleIds then
        match t.roadOf v with
        | none => true
        | some road_id =>
          if strHasSub road_id "_out" || road_id = "" then true
          else if t.simTime - s.emergency_start_time ≥ 10 then true
          else false
      else true

/-- The state produced by `deactivate_emergency_priority`: the (possibly
`None`) active vehicle id is added to the processed set and all active
fields are reset. -/
def deactivatedState (s : CtrlState) : CtrlState :=
  { emergency_active := false
    emergency_vehicle_id := none
    emergency_direction := none
    emergency_start_time := 0
    processed_emergency_vehicles :=
      s.emergency_vehicle_id :: s.processed_emergency_vehicles }

/-- `deactivate_emergency_priority`: mark the vehicle processed, reset the
active fields, and — when the stored direction is `NS` or `EW` — issue the
brief yellow clearance command with duration `2`.  The `green_state`
computed in the Python source is never issued. -/
def deactivate_emergency_priority (s : CtrlState) : CtrlState × List SignalCmd :=
  match s.emergency_direction with
  | some d =>
    (deactivatedState s,
     [{ state := clearanceState d, duration := yellow_clearance_duration }])
  | none => (deactivatedState s, [])

/-- The fold step of Python's `min(…, key=lambda x: x['distance'])`:
a later element replaces the current best only on strictly smaller
distance, so the first minimum wins. -/
def minStep (best y : ApproachCandidate) : ApproachCandidate :=
  if y.distance < best.distance then y else best

/-- `min(emergency_vehicles, key=lambda x: x['distance'])` on a possibly
empty candidate list (the `run` loop only calls it on a non-empty one). -/
def selectClosest : List ApproachCandidate → Option ApproachCandidate
  | [] => none
  | x :: xs => some (xs.foldl minStep x)

/-- The first half of the per-tick body of `run`: while an override is
active, evaluate `check_emergency_vehicle_passed` and deactivate when it
returns `True`. -/
def overridePhase (t : Telemetry) (s : CtrlState) : CtrlState × List SignalCmd :=
  if s.emergency_active = true then
    if check_emergency_vehicle_passed t s = true then
      deactivate_emergency_priority s
    else (s, [])
  else (s, [])

/-- The second half of the per-tick body of `run`: when no override is
active, scan for approaching emergency vehicles and activate priority for
the closest one. -/
def detectPhase (t : Telemetry) (s : CtrlState) : CtrlState × List SignalCmd :=
  if s.emergency_active = false then
    match selectClosest (get_approaching_emergency_vehicles t s.processed_emergency_vehicles) with
    | some closest => activate_emergency_priority t s closest.id closest.direction
    | none => (s, [])
  else (s, [])

/-- One iteration of the `while` loop of `run` (after
`traci.simulationStep()`): the override phase followed by the detection
phase, collecting every signal command issued during the tick. -/
def runStep (t : Telemetry) (s : CtrlState) : CtrlState × List SignalCmd :=
  ((detectPhase t (overridePhase t s).1).1,
   (overridePhase t s).2 ++ (detectPhase t (overridePhase t s).1).2)

/-- Iterating the loop body of `run` over a sequence of telemetry
snapshots, keeping only the controller state. -/
def runSteps (ts : List Telemetry) (s : CtrlState) : CtrlState :=
  ts.foldl (fun st t => (runStep t st).1) s

/-! ## Concrete sample inputs used to exercise the definitions -/

/-- An ambulance `amb1` on approach `north_in`, 45 m from the junction,
at simulated time 0. -/
def demoTelemetry : Telemetry :=
  { vehicleIds := ["amb1"]
    typeOf := fun v => if v = "amb1" then some "emergency" else none
    roadOf := fun v => if v = "amb1" then some "north_in" else none
    lanePosOf := fun v => if v = "amb1" then some 55 else none
    laneIdOf := fun v => if v = "amb1" then some "north_in_0" else none
    laneLengthOf := fun l => if l = "north_in_0" then some 100 else none
    simTime := 0 }

/-- The same scene at simulated time 12, past the 10 s safety timeout. -/
def demoTelemetryLate : Telemetry :=
  { demoTelemetry with simTime := 12 }

/-- The same vehicle after crossing the junction onto `north_out`. -/
def demoTelemetryOut : Telemetry :=
  { demoTelemetry with
      roadOf := fun v => if v = "amb1" then some "north_out" else none }

/-- A tick on which every road query raises a telemetry exception. -/
def demoTelemetryFail : Telemetry :=
  { demoTelemetry with roadOf := fun _ => none }

/-- A controller state in the middle of an override for `amb1` heading
north-south, activated at simulated time 0. -/
def demoActiveNS : CtrlState :=
  { emergency_active := true
    emergency_vehicle_id := some "amb1"
    emergency_direction := some Direction.NS
    emergency_start_time := 0
    processed_emergency_vehicles := [] }

/-- Candidates at distances 40, 10 and 25, discovered in that scan order. -/
def demoCandidates : List ApproachCandidate :=
  [{ id := "amb1", direction := Direction.NS, distance := 40 },
   { id := "amb2", direction := Direction.NS, distance := 10 },
   { id := "amb3", direction := Direction.EW, distance := 25 }]

/-- `amb1` exactly at the 50 m detection boundary (lane position 50 on a
100 m lane). -/
def demoTelemetryAt50 : Telemetry :=
  { demoTelemetry with
      lanePosOf := fun v => if v = "amb1" then some 50 else none }

/-- `amb1` one metre beyond the boundary (51 m from the junction). -/
def demoTelemetryAt51 : Telemetry :=
  { demoTelemetry with
      lanePosOf := fun v => if v = "amb1" then some 49 else none }

/-- The controller-state invariant of the spec's data model: the override
mode flag is set exactly when an active vehicle id is stored, and likewise
exactly when an active direction is stored. -/
def stateInv (s : CtrlState) : Prop :=
  (s.emergency_active = true ↔ s.emergency_vehicle_id.isSome = true) ∧
  (s.emergency_active = true ↔ s.emergency_direction.isSome = true)

/-- The per-lane-group indication that claim C1 asserts for the clearance
command: lane groups showing red during the override turn yellow, all other
groups show red. -/
def claimedClearanceChar (c : Char) : Char :=
  if c = 'r' then 'y' else 'r'

/-- The whole clearance indication string that claim C1 asserts, derived
from the override indication by `claimedClearanceChar`. -/
def claimedClearanceState (d : Direction) : String :=
  ⟨(overrideState d).data.map claimedClearanceChar⟩

/-- A normal-mode state in which `amb1` has already been processed. -/
def demoProcessedState : CtrlState :=
  { initState with processed_emergency_vehicles := [some "amb1"] }

/-! ## Evaluation of the definitions on the sample inputs -/

/-- `amb1` in `demoTelemetry` is scanned into a candidate 45 m away. -/
theorem demoTelemetry_scan : scanVehicle demoTelemetry [] "amb1" =
    some { id := "amb1", direction := Direction.NS, distance := 45 } := by
  norm_num [scanVehicle, demoTelemetry, is_emergency_vehicle, get_vehicle_direction,
    detection_distance, show strHasSub "north_in" "_in" = true from by decide,
    show strHasSub "north_in" "center" = false from by decide,
    show strHasSub "north_in" "north_in" = true from by decide]

/-- The detection scan of `demoTelemetry` finds exactly `amb1`. -/
theorem demoTelemetry_approaching : get_approaching_emergency_vehicles demoTelemetry [] =
    [{ id := "amb1", direction := Direction.NS, distance := 45 }] := by
  simp [get_approaching_emergency_vehicles, demoTelemetry_scan,
    show demoTelemetry.vehicleIds = ["amb1"] from rfl]

/-- Stepping the loop from the initial state on `demoTelemetry` activates
an NS override for `amb1`. -/
theorem demoTelemetry_runStep : runStep demoTelemetry initState =
    ({ emergency_active := true
       emergency_vehicle_id := some "amb1"
       emergency_direction := some Direction.NS
       emergency_start_time := 0
       processed_emergency_vehicles := [] },
     [{ state := "GGGrrrGGGrrr", duration := 10 }]) := by
  simp [runStep, overridePhase, detectPhase, initState, check_emergency_vehicle_passed,
    demoTelemetry_approaching, selectClosest, minStep, activate_emergency_priority,
    overrideState, emergency_phase_duration, show demoTelemetry.simTime = 0 from rfl]

/-- While `amb1` is still on `north_in` before the timeout, the passage
check reports `False`. -/
theorem demo_check_still_active :
    check_emergency_vehicle_passed demoTelemetry demoActiveNS = false := by
  norm_num [check_emergency_vehicle_passed, demoTelemetry, demoActiveNS,
    show strHasSub "north_in" "_out" = false from by decide,
    show ¬("north_in" = "") from by decide]

/-- At simulated time 12 the 10 s timeout has elapsed. -/
theorem demo_check_timeout :
    check_emergency_vehicle_passed demoTelemetryLate demoActiveNS = true := by
  norm_num [check_emergency_vehicle_passed, demoTelemetryLate, demoTelemetry, demoActiveNS,
    show strHasSub "north_in" "_out" = false from by decide]

/-- Once `amb1` reports `north_out`, the passage check reports `True`. -/
theorem demo_check_passed :
    check_emergency_vehicle_passed demoTelemetryOut demoActiveNS = true := by
  norm_num [check_emergency_vehicle_passed, demoTelemetryOut, demoTelemetry, demoActiveNS,
    show strHasSub "north_out" "_out" = true from by decide]

/-- A road-query failure during the passage check reports `True`. -/
theorem demo_check_fail :
    check_emergency_vehicle_passed demoTelemetryFail demoActiveNS = true := by
  norm_num [check_emergency_vehicle_passed, demoTelemetryFail, demoTelemetry, demoActiveNS]

/-- Among candidates at distances 40, 10 and 25 the closest one wins. -/
theorem demo_selectClosest : selectClosest demoCandidates =
    some { id := "amb2", direction := Direction.NS, distance := 10 } := by
  norm_num [selectClosest, demoCandidates, minStep]

/-! ## Facts about the detection scan -/

/-- A processed id is skipped by the per-vehicle scan. -/
theorem scanVehicle_processed (t : Telemetry) (P : List (Option String)) (v : String)
    (h : some v ∈ P) : scanVehicle t P v = none := by
  unfold scanVehicle
  rw [if_pos h]

/-- A produced candidate carries the scanned vehicle's id, and that id was
not in the processed set. -/
theorem scanVehicle_some (t : Telemetry) (P : List (Option String)) (v : String)
    (c : ApproachCandidate) (h : scanVehicle t P v = some c) :
    c.id = v ∧ some v ∉ P := by
  unfold scanVehicle at h
  by_cases hP : some v ∈ P
  · rw [if_pos hP] at h
    exact absurd h (by simp)
  · rw [if_neg hP] at h
    refine ⟨?_, hP⟩
    repeat' split at h
    all_goals simp_all
    exact congrArg ApproachCandidate.id h.symm

/-- Every candidate produced by the detection scan arises from scanning
some live vehicle id. -/
theorem mem_approaching (t : Telemetry) (P : List (Option String))
    (c : ApproachCandidate) (h : c ∈ get_approaching_emergency_vehicles t P) :
    ∃ v, v ∈ t.vehicleIds ∧ scanVehicle t P v = some c := by
  unfold get_approaching_emergency_vehicles at h
  exact List.mem_filterMap.mp h

/-- No candidate produced by the detection scan has a processed id. -/
theorem approaching_not_processed (t : Telemetry) (P : List (Option String))
    (c : ApproachCandidate) (h : c ∈ get_approaching_emergency_vehicles t P) :
    some c.id ∉ P := by
  obtain ⟨v, _, hs⟩ := mem_approaching t P c h
  obtain ⟨hid, hP⟩ := scanVehicle_some t P v c hs
  rw [hid]
  exact hP

/-! ## Facts about the arbiter's fold -/

/-- Folding `minStep` over a candidate list yields the first element of
minimum distance: everything strictly before it in the scanned list is
strictly farther, and nothing anywhere is closer. -/
theorem foldMin_first (xs : List ApproachCandidate) :
    ∀ x : ApproachCandidate, ∃ l1 l2,
      x :: xs = l1 ++ (xs.foldl minStep x) :: l2 ∧
      (∀ y ∈ l1, (xs.foldl minStep x).distance < y.distance) ∧
      (∀ y ∈ x :: xs, (xs.foldl minStep x).distance ≤ y.distance) := by
  induction xs with
  | nil =>
      intro x
      exact ⟨[], [], rfl, by simp, by simp⟩
  | cons y ys ih =>
      intro x
      rw [List.foldl_cons]
      by_cases hlt : y.distance < x.distance
      · rw [show minStep x y = y from if_pos hlt]
        obtain ⟨l1, l2, heq, hl1, hmin⟩ := ih y
        have hcy : (ys.foldl minStep y).distance ≤ y.distance :=
          hmin y (List.mem_cons_self y ys)
        refine ⟨x :: l1, l2, ?_, ?_, ?_⟩
        · rw [List.cons_append, ← heq]
        · intro z hz
          rcases List.mem_cons.mp hz with hz | hz
          · exact hz ▸ lt_of_le_of_lt hcy hlt
          · exact hl1 z hz
        · intro z hz
          rcases List.mem_cons.mp hz with hz | hz
          · exact hz ▸ le_of_lt (lt_of_le_of_lt hcy hlt)
          · exact hmin z hz
      · rw [show minStep x y = x from if_neg hlt]
        obtain ⟨l1, l2, heq, hl1, hmin⟩ := ih x
        have hxy : x.distance ≤ y.distance := le_of_not_lt hlt
        cases l1 with
        | nil =>
            simp only [List.nil_append, List.cons.injEq] at heq
            obtain ⟨hcx, _⟩ := heq
            refine ⟨[], y :: ys, by rw [← hcx, List.nil_append], by simp, ?_⟩
            intro z hz
            rcases List.mem_cons.mp hz with hz | hz
            · rw [hz, ← hcx]
            · rcases List.mem_cons.mp hz with hz | hz
              · rw [hz, ← hcx]
                exact hxy
              · exact hmin z (List.mem_cons_of_mem x hz)
        | cons a l1t =>
            simp only [List.cons_append, List.cons.injEq] at heq
            obtain ⟨hax, hys⟩ := heq
            have hcx : (ys.foldl minStep x).distance < x.distance := by
              have := hl1 a (List.mem_cons_self a l1t)
              rwa [← hax] at this
            refine ⟨x :: y :: l1t, l2, ?_, ?_, ?_⟩
            · rw [List.cons_append, List.cons_append, ← hys]
            · intro z hz
              rcases List.mem_cons.mp hz with hz | hz
              · rw [hz]
                exact hcx
              · rcases List.mem_cons.mp hz with hz | hz
                · rw [hz]
                  exact lt_of_lt_of_le hcx hxy
                · exact hl1 z (List.mem_cons_of_mem a hz)
            · intro z hz
              rcases List.mem_cons.mp hz with hz | hz
              · rw [hz]
                exact le_of_lt hcx
              · rcases List.mem_cons.mp hz with hz | hz
                · rw [hz]
                  exact le_of_lt (lt_of_lt_of_le hcx hxy)
                · exact hmin z (List.mem_cons_of_mem x hz)

/-- The arbiter's choice is one of the candidates. -/
theorem selectClosest_mem (l : List ApproachCandidate) (c : ApproachCandidate)
    (h : selectClosest l = some c) : c ∈ l := by
  cases l with
  | nil => exact absurd h (by simp [selectClosest])
  | cons x xs =>
      obtain ⟨l1, l2, heq, _, _⟩ := foldMin_first xs x
      have hc : xs.foldl minStep x = c := by
        simpa [selectClosest] using h
      rw [heq, hc]
      exact List.mem_append_right l1 (List.mem_cons_self c l2)

/-! ## Facts about the two phases of the loop body -/

/-- Whatever the stored direction, deactivation always produces the reset
state with the vehicle id marked processed. -/
theorem deactivate_fst (s : CtrlState) :
    (deactivate_emergency_priority s).1 = deactivatedState s := by
  unfold deactivate_emergency_priority
  cases s.emergency_direction <;> rfl

/-- Deactivation issues only the yellow clearance command; no command it
issues carries a green indication. -/
theorem deactivate_no_green (s : CtrlState) :
    ∀ c ∈ (deactivate_emergency_priority s).2, 'G' ∉ c.state.data := by
  intro c hc
  unfold deactivate_emergency_priority at hc
  cases hdir : s.emergency_direction with
  | none => simp [hdir] at hc
  | some d =>
      rw [hdir] at hc
      rw [List.mem_singleton] at hc
      rw [hc]
      cases d <;> decide

/-- The override phase either leaves the state and command stream alone or
performs exactly a deactivation. -/
theorem overridePhase_cases (t : Telemetry) (s : CtrlState) :
    overridePhase t s = (s, []) ∨
    overridePhase t s = deactivate_emergency_priority s := by
  unfold overridePhase
  by_cases h1 : s.emergency_active = true
  · rw [if_pos h1]
    by_cases h2 : check_emergency_vehicle_passed t s = true
    · rw [if_pos h2]
      exact Or.inr rfl
    · rw [if_neg h2]
      exact Or.inl rfl
  · rw [if_neg h1]
    exact Or.inl rfl

/-- When an override is active and the passage check fires, the override
phase is exactly a deactivation. -/
theorem overridePhase_deactivates (t : Telemetry) (s : CtrlState)
    (hact : s.emergency_active = true)
    (hchk : check_emergency_vehicle_passed t s = true) :
    overridePhase t s = deactivate_emergency_priority s := by
  unfold overridePhase
  rw [if_pos hact, if_pos hchk]

/-- The detection phase never changes the processed set. -/
theorem detectPhase_processed (t : Telemetry) (s : CtrlState) :
    (detectPhase t s).1.processed_emergency_vehicles = s.processed_emergency_vehicles := by
  unfold detectPhase
  by_cases h1 : s.emergency_active = false
  · rw [if_pos h1]
    cases h2 : selectClosest (get_approaching_emergency_vehicles t
        s.processed_emergency_vehicles) with
    | none => rfl
    | some c => rfl
  · rw [if_neg h1]

/-- The detection phase never makes a processed vehicle active: if `v` is
processed and not currently active, it is still not active afterwards. -/
theorem detectPhase_id (t : Telemetry) (s : CtrlState) (v : String)
    (hv : some v ∈ s.processed_emergency_vehicles)
    (hid : s.emergency_vehicle_id ≠ some v) :
    (detectPhase t s).1.emergency_vehicle_id ≠ some v := by
  unfold detectPhase
  by_cases h1 : s.emergency_active = false
  · rw [if_pos h1]
    cases h2 : selectClosest (get_approaching_emergency_vehicles t
        s.processed_emergency_vehicles) with
    | none => exact hid
    | some c =>
        have hmem := selectClosest_mem _ c h2
        have hnp := approaching_not_processed t _ c hmem
        simp only [activate_emergency_priority, Option.some.injEq, ne_eq]
        intro hEq
        rw [hEq] at hnp
        exact hnp hv
  · rw [if_neg h1]
    exact hid

/-- The detection phase either does nothing or activates an override:
it issues the full-override command and ends with the override active for
the selected candidate's direction. -/
theorem detectPhase_cmds_cases (t : Telemetry) (s : CtrlState) :
    detectPhase t s = (s, []) ∨
    ∃ d, (detectPhase t s).2 =
        [{ state := overrideState d, duration := emergency_phase_duration }] ∧
      (detectPhase t s).1.emergency_active = true ∧
      (detectPhase t s).1.emergency_direction = some d := by
  unfold detectPhase
  by_cases h1 : s.emergency_active = false
  · rw [if_pos h1]
    cases h2 : selectClosest (get_approaching_emergency_vehicles t
        s.processed_emergency_vehicles) with
    | none => exact Or.inl rfl
    | some c => exact Or.inr ⟨c.direction, rfl, rfl, rfl⟩
  · rw [if_neg h1]
    exact Or.inl rfl

/-! ## Facts about one full loop iteration -/

/-- The final state of a tick is the detection phase applied to the
override phase's state. -/
theorem runStep_fst (t : Telemetry) (s : CtrlState) :
    (runStep t s).1 = (detectPhase t (overridePhase t s).1).1 := rfl

/-- The commands of a tick are the override phase's followed by the
detection phase's. -/
theorem runStep_snd (t : Telemetry) (s : CtrlState) :
    (runStep t s).2 =
      (overridePhase t s).2 ++ (detectPhase t (overridePhase t s).1).2 := rfl

/-- The processed set only ever grows across a tick. -/
theorem runStep_processed_mono (t : Telemetry) (s : CtrlState) :
    ∀ x ∈ s.processed_emergency_vehicles,
      x ∈ (runStep t s).1.processed_emergency_vehicles := by
  intro x hx
  rw [runStep_fst, detectPhase_processed]
  rcases overridePhase_cases t s with h | h
  · rw [h]
    exact hx
  · rw [h, deactivate_fst]
    exact List.mem_cons_of_mem _ hx

/-- Across one tick, a processed, non-active vehicle stays processed and
never becomes active again. -/
theorem runStep_no_reentry (t : Telemetry) (s : CtrlState) (v : String)
    (hv : some v ∈ s.processed_emergency_vehicles)
    (hid : s.emergency_vehicle_id ≠ some v) :
    some v ∈ (runStep t s).1.processed_emergency_vehicles ∧
    (runStep t s).1.emergency_vehicle_id ≠ some v := by
  refine ⟨runStep_processed_mono t s (some v) hv, ?_⟩
  rw [runStep_fst]
  rcases overridePhase_cases t s with h | h
  · rw [h]
    exact detectPhase_id t s v hv hid
  · rw [h, deactivate_fst]
    refine detectPhase_id t (deactivatedState s) v ?_ ?_
    · exact List.mem_cons_of_mem _ hv
    · simp [deactivatedState]

/-- Reduction of the passage check once the active vehicle id is known. -/
theorem check_active_some (t : Telemetry) (s : CtrlState) (v : String)
    (hact : s.emergency_active = true)
    (hid : s.emergency_vehicle_id = some v) :
    check_emergency_vehicle_passed t s =
      (if v ∈ t.vehicleIds then
        match t.roadOf v with
        | none => true
        | some road_id =>
          if strHasSub road_id "_out" || road_id = "" then true
          else if t.simTime - s.emergency_start_time ≥ 10 then true
          else false
      else true) := by
  unfold check_emergency_vehicle_passed
  rw [if_neg (by simp [hact]), hid]

/-- When an override is active for `v` and the passage check fires, the
tick deactivates that override: `v` is marked processed and is no longer
the active vehicle afterwards (a different vehicle may be activated in the
same tick, but never `v`). -/
theorem deactivation_effect (t : Telemetry) (s : CtrlState) (v : String)
    (hact : s.emergency_active = true)
    (hid : s.emergency_vehicle_id = some v)
    (hchk : check_emergency_vehicle_passed t s = true) :
    some v ∈ (runStep t s).1.processed_emergency_vehicles ∧
    (runStep t s).1.emergency_vehicle_id ≠ some v := by
  rw [runStep_fst, overridePhase_deactivates t s hact hchk, deactivate_fst]
  have hv : some v ∈ (deactivatedState s).processed_emergency_vehicles := by
    simp [deactivatedState, hid]
  refine ⟨?_, detectPhase_id t (deactivatedState s) v hv (by simp [deactivatedState])⟩
  rw [detectPhase_processed]
  exact hv

/-! ## The claims -/

/-- Claim C10: invoked while no override is active, the passage/timeout
monitor returns `False` unconditionally — for every telemetry snapshot,
without consulting it — and the override phase of the tick leaves the
controller state untouched and issues no command, so no deactivation can be
triggered from `NORMAL` mode. -/
theorem check_inactive_false (s : CtrlState) (h : s.emergency_active = false) :
    (∀ t : Telemetry, check_emergency_vehicle_passed t s = false) ∧
    (∀ t : Telemetry, overridePhase t s = (s, [])) := by
  constructor
  · intro t
    unfold check_emergency_vehicle_passed
    rw [if_pos h]
  · intro t
    unfold overridePhase
    rw [if_neg (by simp [h])]

/-- Witness for C10 at the initial state and the sample telemetry. -/
theorem check_inactive_false_witness :
    check_emergency_vehicle_passed demoTelemetry initState = false ∧
    overridePhase demoTelemetry initState = (initState, []) :=
  ⟨(check_inactive_false initState rfl).1 demoTelemetry,
   (check_inactive_false initState rfl).2 demoTelemetry⟩

/-- Claim C8: while an override is active, a telemetry failure during the
passage/timeout check (the road query for the active vehicle raising, which
the Python `except` catches) makes the check return `True`, and the tick
then leaves `OVERRIDE` for that vehicle: it is marked processed and is no
longer active. -/
theorem check_telemetry_failure_ends (t : Telemetry) (s : CtrlState) (v : String)
    (hact : s.emergency_active = true)
    (hid : s.emergency_vehicle_id = some v)
    (hfail : t.roadOf v = none) :
    check_emergency_vehicle_passed t s = true ∧
    some v ∈ (runStep t s).1.processed_emergency_vehicles ∧
    (runStep t s).1.emergency_vehicle_id ≠ some v := by
  have hchk : check_emergency_vehicle_passed t s = true := by
    rw [check_active_some t s v hact hid]
    by_cases hmem : v ∈ t.vehicleIds
    · rw [if_pos hmem, hfail]
    · rw [if_neg hmem]
  obtain ⟨h1, h2⟩ := deactivation_effect t s v hact hid hchk
  exact ⟨hchk, h1, h2⟩

/-- Witness for C8: a road-query failure at `demoTelemetryFail` ends the
override for `amb1`. -/
theorem check_telemetry_failure_ends_witness :
    check_emergency_vehicle_passed demoTelemetryFail demoActiveNS = true ∧
    some "amb1" ∈ (runStep demoTelemetryFail demoActiveNS).1.processed_emergency_vehicles ∧
    (runStep demoTelemetryFail demoActiveNS).1.emergency_vehicle_id ≠ some "amb1" :=
  check_telemetry_failure_ends demoTelemetryFail demoActiveNS "amb1" rfl rfl rfl

/-- Claim C7: while an override is active, if the active vehicle's road is
an outgoing segment, the empty string, or unresolvable, the passage check
returns `True` on that very tick — with no condition on the elapsed time —
and the override for that vehicle ends on the same tick: it is marked
processed and is no longer the active vehicle. -/
theorem passage_ends_override (t : Telemetry) (s : CtrlState) (v : String)
    (hact : s.emergency_active = true)
    (hid : s.emergency_vehicle_id = some v)
    (hmem : v ∈ t.vehicleIds)
    (hroad : (∃ road, t.roadOf v = some road ∧
        (strHasSub road "_out" = true ∨ road = "")) ∨ t.roadOf v = none) :
    check_emergency_vehicle_passed t s = true ∧
    some v ∈ (runStep t s).1.processed_emergency_vehicles ∧
    (runStep t s).1.emergency_vehicle_id ≠ some v := by
  have hchk : check_emergency_vehicle_passed t s = true := by
    rw [check_active_some t s v hact hid, if_pos hmem]
    rcases hroad with ⟨road, hr, hout⟩ | hr
    · rcases hout with hout | hout <;> simp [hr, hout]
    · simp [hr]
  obtain ⟨h1, h2⟩ := deactivation_effect t s v hact hid hchk
  exact ⟨hchk, h1, h2⟩

/-- Witness for C7: `amb1` reporting `north_out` ends its override on that
tick. -/
theorem passage_ends_override_witness :
    check_emergency_vehicle_passed demoTelemetryOut demoActiveNS = true ∧
    some "amb1" ∈ (runStep demoTelemetryOut demoActiveNS).1.processed_emergency_vehicles ∧
    (runStep demoTelemetryOut demoActiveNS).1.emergency_vehicle_id ≠ some "amb1" :=
  passage_ends_override demoTelemetryOut demoActiveNS "amb1" rfl rfl (by simp [demoTelemetryOut, demoTelemetry])
    (Or.inl ⟨"north_out", rfl, Or.inl (by decide)⟩)

/-- Claim C3: while an override activated at time `T` is active for a
vehicle that is still in the network on an incoming (non-empty, resolvable)
road, the passage check returns `True` exactly when
`simTime − T ≥ emergency_phase_duration` (10 s).  So on every earlier tick
the override continues, and on the first tick at or past `T + 10` it is
deactivated: the vehicle is marked processed. -/
theorem timeout_fires_exactly (t : Telemetry) (s : CtrlState) (v road : String)
    (hact : s.emergency_active = true)
    (hid : s.emergency_vehicle_id = some v)
    (hmem : v ∈ t.vehicleIds)
    (hroad : t.roadOf v = some road)
    (hout : strHasSub road "_out" = false)
    (hne : road ≠ "") :
    emergency_phase_duration = 10 ∧
    (check_emergency_vehicle_passed t s = true ↔
      t.simTime - s.emergency_start_time ≥ emergency_phase_duration) ∧
    (t.simTime - s.emergency_start_time ≥ emergency_phase_duration →
      some v ∈ (runStep t s).1.processed_emergency_vehicles) := by
  have hiff : check_emergency_vehicle_passed t s = true ↔
      t.simTime - s.emergency_start_time ≥ 10 := by
    rw [check_active_some t s v hact hid, if_pos hmem]
    by_cases hge : t.simTime - s.emergency_start_time ≥ 10
    · simp [hroad, hout, hne, hge]
    · simp [hroad, hout, hne, hge]
  refine ⟨rfl, hiff, fun hge => ?_⟩
  exact (deactivation_effect t s v hact hid (hiff.mpr hge)).1

/-- Witness for C3: at simulated time 12 (activation time 0) the timeout
has fired and `amb1` is deactivated; the equivalence also yields that the
check is `True` there. -/
theorem timeout_fires_exactly_witness :
    (check_emergency_vehicle_passed demoTelemetryLate demoActiveNS = true ↔
      demoTelemetryLate.simTime - demoActiveNS.emergency_start_time ≥
        emergency_phase_duration) ∧
    some "amb1" ∈ (runStep demoTelemetryLate demoActiveNS).1.processed_emergency_vehicles := by
  have h := timeout_fires_exactly demoTelemetryLate demoActiveNS "amb1" "north_in"
    rfl rfl (by simp [demoTelemetryLate, demoTelemetry]) rfl (by decide) (by decide)
  exact ⟨h.2.1, h.2.2 (by norm_num [demoTelemetryLate, demoTelemetry, demoActiveNS,
    emergency_phase_duration])⟩

/-- Claim C5: for a vehicle on an incoming approach (priority kind, not yet
processed, all telemetry queries answering, direction resolvable), the scan
computes `distance = laneLength − lanePosition` and produces a candidate
exactly when that distance is at most the 50 m detection distance, boundary
inclusive; in that case the candidate (with that very distance) appears in
the monitor's output, and otherwise no candidate with this vehicle's id
appears at all. -/
theorem detection_boundary (t : Telemetry) (P : List (Option String))
    (v road lid : String) (lane_pos lane_length : ℚ) (d : Direction)
    (hP : some v ∉ P)
    (hty : t.typeOf v = some "emergency")
    (hroad : t.roadOf v = some road)
    (hin : strHasSub road "_in" = true)
    (hcen : strHasSub road "center" = false)
    (hpos : t.lanePosOf v = some lane_pos)
    (hlid : t.laneIdOf v = some lid)
    (hlen : t.laneLengthOf lid = some lane_length)
    (hdir : get_vehicle_direction t v = some d) :
    detection_distance = 50 ∧
    scanVehicle t P v =
      (if lane_length - lane_pos ≤ detection_distance then
        some { id := v, direction := d, distance := lane_length - lane_pos }
       else none) ∧
    (lane_length - lane_pos ≤ detection_distance → v ∈ t.vehicleIds →
      { id := v, direction := d, distance := lane_length - lane_pos } ∈
        get_approaching_emergency_vehicles t P) ∧
    (¬ lane_length - lane_pos ≤ detection_distance →
      ∀ c ∈ get_approaching_emergency_vehicles t P, c.id ≠ v) := by
  have hscan : scanVehicle t P v =
      (if lane_length - lane_pos ≤ detection_distance then
        some { id := v, direction := d, distance := lane_length - lane_pos }
       else none) := by
    unfold scanVehicle
    rw [if_neg hP]
    simp [is_emergency_vehicle, hty, hroad, hin, hcen, hpos, hlid, hlen, hdir]
  refine ⟨rfl, hscan, ?_, ?_⟩
  · intro hle hmem
    refine List.mem_filterMap.mpr ⟨v, hmem, ?_⟩
    rw [hscan, if_pos hle]
  · intro hgt c hc hcv
    obtain ⟨w, _, hs⟩ := mem_approaching t P c hc
    obtain ⟨hidw, _⟩ := scanVehicle_some t P w c hs
    rw [hcv] at hidw
    rw [← hidw] at hs
    rw [hscan, if_neg hgt] at hs
    exact Option.noConfusion hs

/-- Witness for C5: at exactly 50 m the candidate is produced; at 51 m it
is not. -/
theorem detection_boundary_witness :
    scanVehicle demoTelemetryAt50 [] "amb1" =
      some { id := "amb1", direction := Direction.NS, distance := 50 } ∧
    scanVehicle demoTelemetryAt51 [] "amb1" = none := by
  constructor
  · have h := (detection_boundary demoTelemetryAt50 [] "amb1" "north_in" "north_in_0"
      50 100 Direction.NS (by simp) rfl rfl (by decide) (by decide) (by decide)
      rfl rfl (by decide)).2.1
    rw [h, if_pos (by norm_num [detection_distance])]
    norm_num
  · have h := (detection_boundary demoTelemetryAt51 [] "amb1" "north_in" "north_in_0"
      49 100 Direction.NS (by simp) rfl rfl (by decide) (by decide) (by decide)
      rfl rfl (by decide)).2.1
    rw [h, if_neg (by norm_num [detection_distance])]

/-- Claim C6: on a non-empty candidate list the arbiter selects a candidate
of minimum distance, and the selected one is the first such candidate in
scan order — everything strictly before it in the list is strictly
farther. -/
theorem arbiter_first_min (l : List ApproachCandidate) (hne : l ≠ []) :
    ∃ c l1 l2, selectClosest l = some c ∧ l = l1 ++ c :: l2 ∧
      (∀ y ∈ l1, c.distance < y.distance) ∧
      (∀ y ∈ l, c.distance ≤ y.distance) := by
  cases l with
  | nil => exact absurd rfl hne
  | cons x xs =>
      obtain ⟨l1, l2, heq, h1, h2⟩ := foldMin_first xs x
      exact ⟨xs.foldl minStep x, l1, l2, rfl, heq, h1, h2⟩

/-- Witness for C6: on candidates at distances [40, 10, 25] in scan order
the arbiter picks the distance-10 candidate `amb2`. -/
theorem arbiter_first_min_witness :
    selectClosest demoCandidates =
      some { id := "amb2", direction := Direction.NS, distance := 10 } ∧
    (∃ c l1 l2, selectClosest demoCandidates = some c ∧
      demoCandidates = l1 ++ c :: l2 ∧
      (∀ y ∈ l1, c.distance < y.distance) ∧
      (∀ y ∈ demoCandidates, c.distance ≤ y.distance)) :=
  ⟨demo_selectClosest, arbiter_first_min demoCandidates (by simp [demoCandidates])⟩

/-- Claim C9: in every reachable controller state the override flag is set
exactly when an active vehicle id is stored, and exactly when an active
direction is stored — initially, preserved by every tick (activations and
deactivations included), and hence after any run from the initial state.
The single optional id field means at most one vehicle is under override at
any tick. -/
theorem mode_iff_active_vehicle :
    stateInv initState ∧
    (∀ (t : Telemetry) (s : CtrlState), stateInv s → stateInv (runStep t s).1) ∧
    (∀ ts : List Telemetry, stateInv (runSteps ts initState)) := by
  have hinit : stateInv initState := by simp [stateInv, initState]
  have hstep : ∀ (t : Telemetry) (s : CtrlState), stateInv s →
      stateInv (runStep t s).1 := by
    intro t s hs
    rw [runStep_fst]
    have h1 : stateInv (overridePhase t s).1 := by
      rcases overridePhase_cases t s with h | h
      · rw [h]
        exact hs
      · rw [h, deactivate_fst]
        simp [stateInv, deactivatedState]
    unfold detectPhase
    by_cases h2 : (overridePhase t s).1.emergency_active = false
    · rw [if_pos h2]
      cases h3 : selectClosest (get_approaching_emergency_vehicles t
          (overridePhase t s).1.processed_emergency_vehicles) with
      | none => exact h1
      | some c => simp [stateInv, activate_emergency_priority]
    · rw [if_neg h2]
      exact h1
  have hall : ∀ (ts : List Telemetry) (s : CtrlState),
      stateInv s → stateInv (runSteps ts s) := by
    intro ts
    induction ts with
    | nil => exact fun s hs => hs
    | cons t ts ih => exact fun s hs => ih (runStep t s).1 (hstep t s hs)
  exact ⟨hinit, hstep, fun ts => hall ts initState hinit⟩

/-- Witness for C9: the invariant after one activating tick from the
initial state. -/
theorem mode_iff_active_vehicle_witness :
    stateInv (runStep demoTelemetry initState).1 :=
  mode_iff_active_vehicle.2.1 demoTelemetry initState (by simp [stateInv, initState])

/-- Claim C4: once a vehicle id is in the processed set (and it is not the
currently active vehicle, as is the case at the moment of insertion), then
over any further run: the processed set only grows, the id stays in it, the
id never becomes the active vehicle again, and the detection scan excludes
it in every later state. -/
theorem processed_no_reentry (s : CtrlState) (v : String) (ts : List Telemetry)
    (hv : some v ∈ s.processed_emergency_vehicles)
    (hid : s.emergency_vehicle_id ≠ some v) :
    (∀ x ∈ s.processed_emergency_vehicles,
      x ∈ (runSteps ts s).processed_emergency_vehicles) ∧
    some v ∈ (runSteps ts s).processed_emergency_vehicles ∧
    (runSteps ts s).emergency_vehicle_id ≠ some v ∧
    (∀ t : Telemetry,
      scanVehicle t (runSteps ts s).processed_emergency_vehicles v = none) := by
  induction ts generalizing s with
  | nil =>
      exact ⟨fun x hx => hx, hv, hid, fun t => scanVehicle_processed t _ v hv⟩
  | cons t ts ih =>
      obtain ⟨hv1, hid1⟩ := runStep_no_reentry t s v hv hid
      obtain ⟨hmono, h1, h2, h3⟩ := ih (runStep t s).1 hv1 hid1
      refine ⟨?_, h1, h2, h3⟩
      intro x hx
      exact hmono x (runStep_processed_mono t s x hx)

/-- Witness for C4: with `amb1` already processed, a tick on which `amb1`
approaches again neither re-activates it nor removes it from the set. -/
theorem processed_no_reentry_witness :
    (∀ x ∈ demoProcessedState.processed_emergency_vehicles,
      x ∈ (runSteps [demoTelemetry] demoProcessedState).processed_emergency_vehicles) ∧
    some "amb1" ∈ (runSteps [demoTelemetry] demoProcessedState).processed_emergency_vehicles ∧
    (runSteps [demoTelemetry] demoProcessedState).emergency_vehicle_id ≠ some "amb1" ∧
    (∀ t : Telemetry,
      scanVehicle t (runSteps [demoTelemetry] demoProcessedState).processed_emergency_vehicles
        "amb1" = none) :=
  processed_no_reentry demoProcessedState "amb1" [demoTelemetry]
    (by simp [demoProcessedState]) (by simp [demoProcessedState, initState])

/-- Claim C2: the deactivation path issues only the yellow clearance — no
command it issues carries a green indication anywhere — and during any tick
every issued command that contains a green indication is the full-override
activation command of a new override, the tick then ending in OVERRIDE mode
with that direction stored.  So no green command is ever applied between a
clearance and the next override activation. -/
theorem deactivation_never_green (s : CtrlState) (t : Telemetry) :
    (∀ c ∈ (deactivate_emergency_priority s).2, 'G' ∉ c.state.data) ∧
    (∀ c ∈ (runStep t s).2, 'G' ∈ c.state.data →
      ∃ d, c = { state := overrideState d, duration := emergency_phase_duration } ∧
        (runStep t s).1.emergency_active = true ∧
        (runStep t s).1.emergency_direction = some d) := by
  refine ⟨deactivate_no_green s, ?_⟩
  intro c hc hG
  rw [runStep_snd] at hc
  rcases List.mem_append.mp hc with h | h
  · exfalso
    rcases overridePhase_cases t s with he | he
    · rw [he] at h
      exact absurd h (by simp)
    · rw [he] at h
      exact deactivate_no_green s c h hG
  · rcases detectPhase_cmds_cases t (overridePhase t s).1 with he | ⟨d, he, ha, hd⟩
    · rw [he] at h
      exact absurd h (by simp)
    · rw [he] at h
      rw [List.mem_singleton] at h
      exact ⟨d, h, by rw [runStep_fst]; exact ha, by rw [runStep_fst]; exact hd⟩

/-- Witness for C2: the green command issued on an activating tick from the
initial state is indeed the activation command of the new NS override. -/
theorem deactivation_never_green_witness :
    ∃ d, ({ state := "GGGrrrGGGrrr", duration := 10 } : SignalCmd) =
        { state := overrideState d, duration := emergency_phase_duration } ∧
      (runStep demoTelemetry initState).1.emergency_active = true ∧
      (runStep demoTelemetry initState).1.emergency_direction = some d :=
  (deactivation_never_green initState demoTelemetry).2
    { state := "GGGrrrGGGrrr", duration := 10 }
    (by simp [demoTelemetry_runStep])
    (by decide)

/-- Claim C1 as stated is false on the code: deactivating the NS override
issues the actual clearance `yyyrrryyyrrr`, not the command the claim
mandates (previously red groups to yellow, the rest red, i.e.
`rrryyyrrryyy`); concretely, lane group 3 (an east_in group, red during the
NS override) stays `'r'` in the issued clearance although the claim
requires `'y'` there. -/
theorem clearance_red_to_yellow_counterexample :
    (deactivate_emergency_priority demoActiveNS).2 =
      [{ state := clearanceState Direction.NS, duration := 2 }] ∧
    (deactivate_emergency_priority demoActiveNS).2 ≠
      [{ state := claimedClearanceState Direction.NS, duration := 2 }] ∧
    claimedClearanceState Direction.NS = "rrryyyrrryyy" ∧
    (overrideState Direction.NS).data.get? 3 = some 'r' ∧
    (clearanceState Direction.NS).data.get? 3 = some 'r' ∧
    (claimedClearanceState Direction.NS).data.get? 3 = some 'y' := by
  refine ⟨by decide, by decide, by decide, by decide, by decide, by decide⟩

/-- Claim C1 amended: on every deactivation of an override whose stored
direction is `d`, exactly one clearance command is issued, its duration is
the fixed 2 s clearance interval, and its indication turns exactly the lane
groups that were GREEN during the override to yellow while the groups that
were red stay red. -/
theorem clearance_green_to_yellow (s : CtrlState) (d : Direction)
    (hd : s.emergency_direction = some d) :
    (deactivate_emergency_priority s).2 =
      [{ state := clearanceState d, duration := yellow_clearance_duration }] ∧
    yellow_clearance_duration = 2 ∧
    (∀ i, i < 12 →
      ((overrideState d).data.get? i = some 'G' →
        (clearanceState d).data.get? i = some 'y') ∧
      ((overrideState d).data.get? i = some 'r' →
        (clearanceState d).data.get? i = some 'r')) := by
  refine ⟨?_, rfl, ?_⟩
  · unfold deactivate_emergency_priority
    rw [hd]
  · cases d <;> decide

/-- Witness for C1 (amended) at the active NS state. -/
theorem clearance_green_to_yellow_witness :
    (deactivate_emergency_priority demoActiveNS).2 =
      [{ state := clearanceState Direction.NS, duration := yellow_clearance_duration }] ∧
    yellow_clearance_duration = 2 ∧
    (∀ i, i < 12 →
      ((overrideState Direction.NS).data.get? i = some 'G' →
        (clearanceState Direction.NS).data.get? i = some 'y') ∧
      ((overrideState Direction.NS).data.get? i = some 'r' →
        (clearanceState Direction.NS).data.get? i = some 'r')) :=
  clearance_green_to_yellow demoActiveNS Direction.NS rfl

end EminSumo
